import Mathlib

/-!
Shallow embedding of the browser-automation core of the playwright agent.

The embedding models the asynchronous TypeScript code as pure functions:
every call to the browser driver (goto, close, click, waitForLoadState, ...)
is represented by an outcome supplied through an environment record, with
`Except.ok` standing for a resolved promise and `Except.error` for a rejected
one.  Promise `.catch` combinators and `try`/`catch`/`finally` blocks are
translated structurally, and each function additionally returns a trace of
the observable driver calls it performed, so that statements about "which
operations were attempted" can be made precise.
-/

/-! ## Action Executor: `safeBrowserOperation` (src/tools/browser/browserBaseTools.ts) -/

/-- Environment of one `safeBrowserOperation` run: the outcome of
`ensureBrowser()`, of `page.waitForLoadState("domcontentloaded")`, and of the
wrapped `operation`, indexed by the attempt number (the value of `retries`
at the start of the loop iteration). -/
structure SBOEnv (A : Type) where
  ensure : Nat → Except String Unit
  waitLoad : Nat → Except String Unit
  op : Nat → Except String A

/-- The `.catch(() => logger.warn(...))` attached to `waitForLoadState`:
a rejected promise is turned into a resolved one (the warning is only
logged). -/
def promiseCatchUnit (r : Except String Unit) : Except String Unit :=
  match r with
  | Except.ok _ => Except.ok ()
  | Except.error _ => Except.ok ()

/-- The `while (retries <= maxRetries)` loop of `safeBrowserOperation`.
`fuel` is the number of loop iterations still allowed
(`maxRetries + 1 - retries`); when it reaches `0` the loop has exited and
the function throws `lastError` (or the fallback message when no error was
recorded).  The second component of the result lists the attempt numbers at
which `operation` was actually invoked. -/
def sboLoop {A : Type} (env : SBOEnv A) :
    Nat → Nat → Option String → Except String A × List Nat
  | _, 0, lastError =>
    (Except.error (lastError.getD "Operation failed after retries"), [])
  | retries, fuel + 1, _lastError =>
    match env.ensure retries with
    | Except.error e => sboLoop env (retries + 1) fuel (some e)
    | Except.ok _ =>
      match promiseCatchUnit (env.waitLoad retries) with
      | Except.error e => sboLoop env (retries + 1) fuel (some e)
      | Except.ok _ =>
        match env.op retries with
        | Except.ok a => (Except.ok a, [retries])
        | Except.error e =>
          let r := sboLoop env (retries + 1) fuel (some e)
          (r.1, retries :: r.2)

/-- `safeBrowserOperation(context, operation, maxRetries)`: run the retry
loop starting from `retries = 0` with no recorded error. -/
def safeBrowserOperation {A : Type} (env : SBOEnv A) (maxRetries : Nat) :
    Except String A × List Nat :=
  sboLoop env 0 (maxRetries + 1) none

/-- A stub operation that fails on its first `N` invocations (with the
errors `errs 0, errs 1, ...`) and then succeeds with value `v`; the session
and the load-state wait always succeed. -/
def stubEnv (N : Nat) (errs : Nat → String) (v : Nat) : SBOEnv Nat :=
  ⟨fun _ => Except.ok (), fun _ => Except.ok (),
   fun k => if k < N then Except.error (errs k) else Except.ok v⟩

/-! ## Navigation Controller: `navigateToUrl` (navigationTool file) -/

/-- Observable steps of one `navigateToUrl` call: a `goto` attempt with its
retry index, or a `page.waitForTimeout(ms)` backoff sleep. -/
inductive NavStep where
  | attempt (k : Nat)
  | backoff (ms : Nat)
deriving DecidableEq

/-- The recursive `openInternal(retryCount)` helper.  The load outcome of
attempt `k` is `goto k`.  A failed attempt with `retryCount < 3` sleeps
`5000 * (retryCount + 1)` ms and recurses; a failed attempt with
`retryCount = 3` falls out of the `catch` block without rethrowing (the
silent give-up).  `fuel` bounds the recursion; the entry point passes `4`,
which is never exhausted because the `retryCount < 3` guard stops first. -/
def openInternal (goto : Nat → Except String Unit) :
    Nat → Nat → Except String Unit × List NavStep
  | _, 0 => (Except.ok (), [])
  | rc, fuel + 1 =>
    match goto rc with
    | Except.ok _ => (Except.ok (), [NavStep.attempt rc])
    | Except.error _ =>
      if rc < 3 then
        let r := openInternal goto (rc + 1) fuel
        (r.1, NavStep.attempt rc :: NavStep.backoff (5000 * (rc + 1)) :: r.2)
      else
        (Except.ok (), [NavStep.attempt rc])

/-- `navigateToUrl(page, url, waitToLoadDomContent)`: run `openInternal(0)`,
then, when `waitToLoadDomContent` is set, await
`page.waitForLoadState("domcontentloaded", { timeout: 60000 })`, whose
outcome is `domWait`.  That final wait carries no `catch`, so its rejection
propagates to the caller. -/
def navigateToUrl (goto : Nat → Except String Unit)
    (domWait : Except String Unit) (waitToLoadDomContent : Bool) :
    Except String Unit × List NavStep :=
  let nav := openInternal goto 0 4
  match nav.1 with
  | Except.error e => (Except.error e, nav.2)
  | Except.ok _ =>
    if waitToLoadDomContent then
      match domWait with
      | Except.ok _ => (Except.ok (), nav.2)
      | Except.error e => (Except.error e, nav.2)
    else (Except.ok (), nav.2)

def isBackoff : NavStep → Bool
  | NavStep.backoff _ => true
  | NavStep.attempt _ => false

/-- Number of backoff sleeps in a navigation trace (= number of retries). -/
def backoffCount (tr : List NavStep) : Nat := (tr.filter isBackoff).length

/-- Number of `goto` attempts in a navigation trace. -/
def attemptCount (tr : List NavStep) : Nat :=
  (tr.filter fun s => !isBackoff s).length

/-! ## Session Store: `BrowserManager` (src/tools/playwrightToolHandler.ts) -/

/-- The mutable fields of the `BrowserManager` singleton.  Browser, context
and page handles are identified by numeric ids; `nextId` is the allocator
used by the model of `chromium.launch` / `newContext` / `newPage` to hand
out ids of objects that did not exist before (launching creates fresh
driver objects, never a previously seen one). -/
structure BMState where
  browser : Option Nat
  context : Option Nat
  page : Option Nat
  isInitializing : Bool
  nextId : Nat
deriving DecidableEq

/-- Outcomes of the driver calls made by `reset`: whether
`page.isClosed()` reports `true`, and the outcomes of `page.close()`,
`context.close()` and `browser.close()`. -/
structure ResetEnv where
  pageIsClosed : Bool
  pageClose : Except String Unit
  contextClose : Except String Unit
  browserClose : Except String Unit

/-- Close operations attempted by `reset`, in order. -/
inductive ResetEv where
  | closePage
  | closeContext
  | closeBrowser
deriving DecidableEq

/-- Third step of the `try` block of `reset`: `if (this.browser) await
this.browser.close()`. -/
def resetBrowserStep (st : BMState) (env : ResetEnv) (tr : List ResetEv) :
    List ResetEv × Option String :=
  if st.browser.isSome then
    match env.browserClose with
    | Except.error e => (tr ++ [ResetEv.closeBrowser], some e)
    | Except.ok _ => (tr ++ [ResetEv.closeBrowser], none)
  else (tr, none)

/-- Second step of the `try` block of `reset`: `if (this.context) await
this.context.close()`; a thrown error aborts the block. -/
def resetContextStep (st : BMState) (env : ResetEnv) (tr : List ResetEv) :
    List ResetEv × Option String :=
  if st.context.isSome then
    match env.contextClose with
    | Except.error e => (tr ++ [ResetEv.closeContext], some e)
    | Except.ok _ => resetBrowserStep st env (tr ++ [ResetEv.closeContext])
  else resetBrowserStep st env tr

/-- The whole `try` block of `reset`: page close (guarded by
`this.page && !this.page.isClosed()`), then context close, then browser
close, where the first thrown error aborts the remaining steps and is
reported as the second component (to be caught by the surrounding
`catch`). -/
def resetTryBlock (st : BMState) (env : ResetEnv) :
    List ResetEv × Option String :=
  if st.page.isSome && !env.pageIsClosed then
    match env.pageClose with
    | Except.error e => ([ResetEv.closePage], some e)
    | Except.ok _ => resetContextStep st env [ResetEv.closePage]
  else resetContextStep st env []

/-- `BrowserManager.reset()`: run the `try` block, swallow (log) any error
it produced, and in the `finally` block set `page`, `context` and `browser`
to `null`.  Returns the new state and the trace of attempted closes. -/
def BrowserManager.reset (st : BMState) (env : ResetEnv) :
    BMState × List ResetEv :=
  let t := resetTryBlock st env
  (⟨none, none, none, st.isInitializing, st.nextId⟩, t.1)

/-- Outcomes of the driver calls made while launching:
`page.isClosed()` per page id, and `chromium.launch()`,
`browser.newContext()`, `browser.newPage()`. -/
structure LaunchEnv where
  pageClosed : Nat → Bool
  launch : Except String Unit
  newContext : Except String Unit
  newPage : Except String Unit

/-- Result of one `getBrowser()` call.  `wouldWait` marks the
initialization-in-flight branch, in which the caller polls until the
concurrent initializer finishes; with a single sequential caller that
branch is never entered from a quiescent state. -/
inductive GetBrowserResult where
  | reused (b p : Nat)
  | launched (b p : Nat)
  | failed (e : String)
  | wouldWait
deriving DecidableEq

/-- The launch section of `getBrowser`: set `isInitializing`, then
`chromium.launch()`, `newContext()`, `newPage()`, assigning each handle as
soon as its call resolves; an error propagates after the `finally` clears
`isInitializing`.  Fresh ids come from `nextId`. -/
def launchPhase (st : BMState) (env : LaunchEnv) :
    GetBrowserResult × BMState :=
  match env.launch with
  | Except.error e =>
    (GetBrowserResult.failed e,
     ⟨st.browser, st.context, st.page, false, st.nextId⟩)
  | Except.ok _ =>
    let b := st.nextId
    match env.newContext with
    | Except.error e =>
      (GetBrowserResult.failed e,
       ⟨some b, st.context, st.page, false, st.nextId + 1⟩)
    | Except.ok _ =>
      let c := st.nextId + 1
      match env.newPage with
      | Except.error e =>
        (GetBrowserResult.failed e,
         ⟨some b, some c, st.page, false, st.nextId + 2⟩)
      | Except.ok _ =>
        let p := st.nextId + 2
        (GetBrowserResult.launched b p,
         ⟨some b, some c, some p, false, st.nextId + 3⟩)

/-- `BrowserManager.getBrowser()`: reuse the existing browser and page when
both are present and the page is not closed; otherwise poll while another
initialization is in flight; otherwise launch. -/
def BrowserManager.getBrowser (st : BMState) (env : LaunchEnv) :
    GetBrowserResult × BMState :=
  match st.browser, st.page with
  | some b, some p =>
    if env.pageClosed p then
      if st.isInitializing then (GetBrowserResult.wouldWait, st)
      else launchPhase st env
    else (GetBrowserResult.reused b p, st)
  | _, _ =>
    if st.isInitializing then (GetBrowserResult.wouldWait, st)
    else launchPhase st env

/-- `h` is one of the handles held by `st`. -/
def isOldHandle (st : BMState) (h : Nat) : Prop :=
  st.browser = some h ∨ st.context = some h ∨ st.page = some h

def optBelow : Option Nat → Nat → Bool
  | none, _ => true
  | some k, n => decide (k < n)

/-- Allocator invariant: every handle held by the state was allocated
below `nextId`. -/
def handlesBelow (st : BMState) : Bool :=
  optBelow st.browser st.nextId && optBelow st.context st.nextId &&
    optBelow st.page st.nextId

/-! ## Failure Recovery Handler: `ToolCallLogger.handleToolError`
(src/lib/langchain-agent.ts) -/

def isPrefixChars : List Char → List Char → Bool
  | [], _ => true
  | _ :: _, [] => false
  | a :: as, b :: bs => a == b && isPrefixChars as bs

def hasSubstring (sub : List Char) : List Char → Bool
  | [] => isPrefixChars sub []
  | c :: cs => isPrefixChars sub (c :: cs) || hasSubstring sub cs

/-- JavaScript `String.prototype.includes`: substring containment. -/
def jsIncludes (s sub : String) : Bool := hasSubstring sub.data s.data

inductive ProcOutcome where
  | exited (code : Nat)
  | returned
deriving DecidableEq

/-- `handleToolError(error)`: attempt `closeBrowserTool.invoke("{}")` once
inside a `try`/`catch` that swallows any close failure, then call
`process.exit(1)` exactly when the error message contains `"critical"` or
`"timeout"`, and otherwise return normally.  The second component counts
the session-close attempts made. -/
def ToolCallLogger.handleToolError (msg : String)
    (closeResult : Except String String) : ProcOutcome × Nat :=
  let closeAttempts : Nat :=
    match closeResult with
    | Except.ok _ => 1
    | Except.error _ => 1
  if jsIncludes msg "critical" || jsIncludes msg "timeout" then
    (ProcOutcome.exited 1, closeAttempts)
  else
    (ProcOutcome.returned, closeAttempts)

/-! ## `closeBrowserTool` (navigationTool file) -/

/-- The browser handle seen by `closeBrowserTool` through its tool context:
whether `isConnected()` holds and the outcome of `browser.close()`. -/
structure BrowserHandle where
  isConnected : Bool
  closeResult : Except String Unit

inductive CloseToolEv where
  | browserCloseAttempted
  | resetState
deriving DecidableEq

/-- `closeBrowserTool.func`: with no browser on the context, return the
no-browser confirmation immediately; otherwise close when connected (the
`.catch` and the surrounding `try`/`catch` swallow any failure), always run
`resetBrowserState()` in the `finally`, and return the closed
confirmation. -/
def closeBrowserToolRun : Option BrowserHandle → String × List CloseToolEv
  | none => ("No browser instance to close", [])
  | some b =>
    if b.isConnected then
      match b.closeResult with
      | Except.ok _ =>
        ("Browser closed successfully",
         [CloseToolEv.browserCloseAttempted, CloseToolEv.resetState])
      | Except.error _ =>
        ("Browser closed successfully",
         [CloseToolEv.browserCloseAttempted, CloseToolEv.resetState])
    else
      ("Browser closed successfully", [CloseToolEv.resetState])

/-! ## Popup Suppressor: `handleCommonPopups`
(src/tools/browser/browserBaseTools.ts) -/

/-- The ordered consent-selector priority list from the source. -/
def commonConsentSelectors : List String :=
  ["button[aria-label*=\"Accept\"]",
   "button[aria-label*=\"Cookie\"]",
   "button:has-text(\"Accept\")",
   "button:has-text(\"Accept All\")",
   "button:has-text(\"I Agree\")",
   "button:has-text(\"I Accept\")",
   "button:has-text(\"Allow\")",
   "button:has-text(\"Close\")",
   "button:has-text(\"Got it\")",
   ".cookie-consent button",
   "#consent button",
   "#consent-popup button",
   ".consent-banner button"]

/-- What the page reports for each selector: `locator(sel).first().count()`,
whether that first element is visible, whether it is clickable, and the
outcome of clicking it. -/
structure PopupPage where
  count : String → Nat
  firstVisible : String → Bool
  firstClickable : String → Bool
  clickResult : String → Except String Unit

/-- The `for (const selector of commonConsentSelectors)` loop: on the first
selector whose `count()` is positive, click its first element (the attached
`.catch` logs and swallows a click failure) and `break`.  The second
component lists the selectors whose element was clicked. -/
def popupScan (pg : PopupPage) : List String → Except String Unit × List String
  | [] => (Except.ok (), [])
  | sel :: rest =>
    if pg.count sel > 0 then
      match pg.clickResult sel with
      | Except.ok _ => (Except.ok (), [sel])
      | Except.error _ => (Except.ok (), [sel])
    else popupScan pg rest

/-- `handleCommonPopups(page)` (the consent-banner part; the dialog handler
registration has no selector scan). -/
def handleCommonPopups (pg : PopupPage) : Except String Unit × List String :=
  popupScan pg commonConsentSelectors

/-- Modelled from the spec: the selection rule the specification describes,
"the first matching, visible, clickable element found" in priority order —
for comparison with the rule of the code, which tests `count()` only. -/
def specPopupChoice (pg : PopupPage) : List String → Option String
  | [] => none
  | sel :: rest =>
    if pg.count sel > 0 && pg.firstVisible sel && pg.firstClickable sel then
      some sel
    else specPopupChoice pg rest

/-! ## getText tool (interaction tools file) -/

/-- Strip whitespace from both ends of a character list. -/
def trimChars (l : List Char) : List Char :=
  ((l.dropWhile Char.isWhitespace).reverse.dropWhile Char.isWhitespace).reverse

/-- JavaScript `String.prototype.trim`: remove leading and trailing
whitespace. -/
def jsTrim (s : String) : String := String.mk (trimChars s.data)

/-- `el.textContent?.trim() || ""`: optional chaining turns a `null`
`textContent` into `undefined` (modelled `none`), and `|| ""` replaces a
falsy (empty) trimmed string by `""`. -/
def getTextPayload : Option String → String
  | none => ""
  | some s => if jsTrim s = "" then "" else jsTrim s

/-- `getTextTool.func`: wait for the selector (outcome `waitForSel`), then
evaluate the text payload and return the confirmation plus payload. -/
def getTextToolRun (waitForSel : Except String Unit)
    (textContent : Option String) : Except String (String × String) :=
  match waitForSel with
  | Except.error e => Except.error e
  | Except.ok _ =>
    let text := getTextPayload textContent
    Except.ok ("Text content: " ++ text, text)

/-! ## Concrete inputs used by witnesses and counterexamples -/

def stubErrs : Nat → String := fun k => String.mk (List.replicate k 'x')

/-- A state holding a full session: browser 0, context 1, page 2. -/
def st0 : BMState := ⟨some 0, some 1, some 2, false, 3⟩

def renv0 : ResetEnv := ⟨false, Except.ok (), Except.ok (), Except.ok ()⟩

def lenv0 : LaunchEnv :=
  ⟨fun _ => false, Except.ok (), Except.ok (), Except.ok ()⟩

/-- A state holding a full session whose page close will fail. -/
def st3 : BMState := ⟨some 10, some 11, some 12, false, 13⟩

def env3 : ResetEnv :=
  ⟨false, Except.error "page close failed", Except.ok (), Except.ok ()⟩

def selAccept : String := "button[aria-label*=\"Accept\"]"

def selCookie : String := ".cookie-consent button"

/-- A page on which the first selector in priority order matches only a
hidden, non-clickable element, while a later selector matches a visible,
clickable one. -/
def popupCexPage : PopupPage :=
  ⟨fun sel => if sel = selAccept || sel = selCookie then 1 else 0,
   fun sel => sel == selCookie,
   fun sel => sel == selCookie,
   fun _ => Except.ok ()⟩

/-! ## Lemmas about the Action Executor -/

theorem promiseCatchUnit_ok (r : Except String Unit) :
    promiseCatchUnit r = Except.ok () := by
  cases r <;> rfl

theorem sboLoop_len {A : Type} (env : SBOEnv A) :
    ∀ fuel rc le, ((sboLoop env rc fuel le).2).length ≤ fuel := by
  intro fuel
  induction fuel with
  | zero => intro rc le; simp [sboLoop]
  | succ f ih =>
    intro rc le
    simp only [sboLoop, promiseCatchUnit_ok]
    cases h1 : env.ensure rc with
    | error e => exact Nat.le_succ_of_le (ih (rc + 1) (some e))
    | ok u =>
      cases h2 : env.op rc with
      | ok a => simp
      | error e =>
        simpa using Nat.succ_le_succ (ih (rc + 1) (some e))

theorem sboLoop_wait_irrel {A : Type} (en w w' : Nat → Except String Unit)
    (o : Nat → Except String A) :
    ∀ fuel rc le,
      sboLoop ⟨en, w, o⟩ rc fuel le = sboLoop ⟨en, w', o⟩ rc fuel le := by
  intro fuel
  induction fuel with
  | zero => intro rc le; rfl
  | succ f ih =>
    intro rc le
    simp only [sboLoop, promiseCatchUnit_ok]
    cases h1 : en rc with
    | error e => exact ih (rc + 1) (some e)
    | ok u =>
      cases h2 : o rc with
      | ok a => rfl
      | error e => simp [ih (rc + 1) (some e)]

theorem stubEnv_ensure (N : Nat) (errs : Nat → String) (v k : Nat) :
    (stubEnv N errs v).ensure k = Except.ok () := rfl

theorem stubEnv_waitLoad (N : Nat) (errs : Nat → String) (v k : Nat) :
    (stubEnv N errs v).waitLoad k = Except.ok () := rfl

theorem stubEnv_op (N : Nat) (errs : Nat → String) (v k : Nat) :
    (stubEnv N errs v).op k =
      if k < N then Except.error (errs k) else Except.ok v := rfl

theorem sboLoop_stub_hit (N : Nat) (errs : Nat → String) (v : Nat) :
    ∀ fuel rc le, rc ≤ N → N - rc < fuel →
      sboLoop (stubEnv N errs v) rc fuel le =
        (Except.ok v, List.range' rc (N - rc + 1)) := by
  intro fuel
  induction fuel with
  | zero => intro rc le h1 h2; omega
  | succ f ih =>
    intro rc le h1 h2
    simp only [sboLoop, stubEnv_ensure, stubEnv_waitLoad, stubEnv_op,
      promiseCatchUnit_ok]
    by_cases hrc : rc < N
    · simp only [if_pos hrc]
      rw [ih (rc + 1) (some (errs rc)) hrc (by omega)]
      have harith : N - rc + 1 = (N - (rc + 1) + 1) + 1 := by omega
      rw [harith]
      simp [List.range'_succ]
    · have hEq : rc = N := by omega
      subst hEq
      simp [List.range']

theorem sboLoop_stub_miss (N : Nat) (errs : Nat → String) (v : Nat) :
    ∀ fuel rc le, 0 < fuel → rc + fuel ≤ N →
      sboLoop (stubEnv N errs v) rc fuel le =
        (Except.error (errs (rc + fuel - 1)), List.range' rc fuel) := by
  intro fuel
  induction fuel with
  | zero => intro rc le h1 h2; omega
  | succ f ih =>
    intro rc le _h1 h2
    have hrc : rc < N := by omega
    simp only [sboLoop, stubEnv_ensure, stubEnv_waitLoad, stubEnv_op,
      promiseCatchUnit_ok, if_pos hrc]
    cases f with
    | zero => simp [sboLoop, List.range']
    | succ g =>
      rw [ih (rc + 1) (some (errs rc)) (by omega) (by omega)]
      have harith : rc + 1 + (g + 1) - 1 = rc + (g + 1 + 1) - 1 := by omega
      rw [harith]
      simp [List.range'_succ]

/-! ## Claims about the Action Executor -/

/-- Claim C1, amended: for every operation and every `maxRetries` bound,
`safeBrowserOperation` invokes the operation at most `1 + maxRetries`
times, retrying a failing operation exactly `maxRetries` additional times
before raising the last observed error; a stub operation that fails `N`
times then succeeds yields success (after attempts `0..N`) when
`N ≤ maxRetries`, and when `N > maxRetries` raises the
`(maxRetries + 1)`-th error observed — the last one — after attempts
`0..maxRetries`, not the `N`-th error. -/
theorem sbo_retry_budget :
    (∀ (A : Type) (env : SBOEnv A) (mr : Nat),
       ((safeBrowserOperation env mr).2).length ≤ mr + 1)
    ∧ (∀ (N mr : Nat) (errs : Nat → String) (v : Nat),
        (N ≤ mr → safeBrowserOperation (stubEnv N errs v) mr =
            (Except.ok v, List.range (N + 1)))
        ∧ (mr < N → safeBrowserOperation (stubEnv N errs v) mr =
            (Except.error (errs mr), List.range (mr + 1)))) := by
  constructor
  · intro A env mr
    exact sboLoop_len env (mr + 1) 0 none
  · intro N mr errs v
    constructor
    · intro h
      rw [safeBrowserOperation,
        sboLoop_stub_hit N errs v (mr + 1) 0 none (Nat.zero_le N) (by omega),
        List.range_eq_range']
      simp
    · intro h
      rw [safeBrowserOperation,
        sboLoop_stub_miss N errs v (mr + 1) 0 none (by omega) (by omega),
        List.range_eq_range']
      simp

/-- Witness for `sbo_retry_budget`: with `maxRetries = 1`, a stub failing
once succeeds on the retry, and a stub failing three times raises the
second error after two attempts. -/
theorem sbo_retry_budget_witness :
    safeBrowserOperation (stubEnv 1 stubErrs 7) 1 = (Except.ok 7, List.range 2)
    ∧ safeBrowserOperation (stubEnv 3 stubErrs 7) 1 =
        (Except.error (stubErrs 1), List.range 2) :=
  ⟨(sbo_retry_budget.2 1 1 stubErrs 7).1 (by omega),
   (sbo_retry_budget.2 3 1 stubErrs 7).2 (by omega)⟩

/-- Counterexample to claim C1 as stated: with `maxRetries = 1` and a stub
that fails `N = 3` times then succeeds, the raised error is the second
error observed (`stubErrs 1 = "x"`), not the `N`-th error
(`stubErrs 2 = "xx"`). -/
theorem sbo_nth_error_counterexample :
    (safeBrowserOperation (stubEnv 3 stubErrs 7) 1).1 =
        Except.error (stubErrs 1)
    ∧ (safeBrowserOperation (stubEnv 3 stubErrs 7) 1).1 ≠
        Except.error (stubErrs 2) := by
  constructor
  · rfl
  · intro h
    rw [show (safeBrowserOperation (stubEnv 3 stubErrs 7) 1).1 =
          Except.error (stubErrs 1) from rfl] at h
    injection h with h2
    exact absurd h2 (by decide)

/-- Claim C9, confirmed: each attempt of `safeBrowserOperation` first waits
for the `domcontentloaded` load state, and a failure of that wait never
aborts the attempt: the whole result (value and trace of operation
invocations) is independent of the wait outcomes, and even when every wait
would fail the operation is still invoked on the very first attempt. -/
theorem sbo_waitload_best_effort :
    (∀ (A : Type) (en w w' : Nat → Except String Unit)
       (o : Nat → Except String A) (mr : Nat),
       safeBrowserOperation ⟨en, w, o⟩ mr = safeBrowserOperation ⟨en, w', o⟩ mr)
    ∧ (∀ (A : Type) (w : Nat → Except String Unit)
       (o : Nat → Except String A) (mr : Nat),
       ((safeBrowserOperation ⟨fun _ => Except.ok (), w, o⟩ mr).2).head? =
         some 0) := by
  constructor
  · intro A en w w' o mr
    exact sboLoop_wait_irrel en w w' o (mr + 1) 0 none
  · intro A w o mr
    simp only [safeBrowserOperation, sboLoop, promiseCatchUnit_ok]
    cases h : o 0 with
    | ok a => rfl
    | error e => rfl

/-! ## Lemmas about the Navigation Controller -/

theorem openInternal_ok (goto : Nat → Except String Unit) :
    ∀ fuel rc, (openInternal goto rc fuel).1 = Except.ok () := by
  intro fuel
  induction fuel with
  | zero => intro rc; rfl
  | succ f ih =>
    intro rc
    simp only [openInternal]
    cases h : goto rc with
    | ok u => rfl
    | error e =>
      by_cases h3 : rc < 3
      · simp [h3, ih]
      · simp [h3]

theorem navigateToUrl_trace (goto : Nat → Except String Unit)
    (domWait : Except String Unit) (w : Bool) :
    (navigateToUrl goto domWait w).2 = (openInternal goto 0 4).2 := by
  simp only [navigateToUrl, openInternal_ok]
  cases w <;> cases domWait <;> rfl

theorem navigateToUrl_result (goto : Nat → Except String Unit)
    (domWait : Except String Unit) (w : Bool) :
    (navigateToUrl goto domWait w).1 =
      (if w then
        match domWait with
        | Except.ok _ => Except.ok ()
        | Except.error e => Except.error e
       else Except.ok ()) := by
  simp only [navigateToUrl, openInternal_ok]
  cases w <;> cases domWait <;> rfl

theorem backoffCount_nil : backoffCount [] = 0 := rfl

theorem backoffCount_attempt (k : Nat) (tr : List NavStep) :
    backoffCount (NavStep.attempt k :: tr) = backoffCount tr := rfl

theorem backoffCount_backoff (ms : Nat) (tr : List NavStep) :
    backoffCount (NavStep.backoff ms :: tr) = backoffCount tr + 1 := rfl

theorem attemptCount_nil : attemptCount [] = 0 := rfl

theorem attemptCount_attempt (k : Nat) (tr : List NavStep) :
    attemptCount (NavStep.attempt k :: tr) = attemptCount tr + 1 := rfl

theorem attemptCount_backoff (ms : Nat) (tr : List NavStep) :
    attemptCount (NavStep.backoff ms :: tr) = attemptCount tr := rfl

theorem openInternal_backoffCount (goto : Nat → Except String Unit) :
    ∀ fuel rc, backoffCount (openInternal goto rc fuel).2 ≤ 3 - rc := by
  intro fuel
  induction fuel with
  | zero => intro rc; simp [openInternal, backoffCount_nil]
  | succ f ih =>
    intro rc
    simp only [openInternal]
    cases h : goto rc with
    | ok u =>
      simp only [backoffCount_attempt, backoffCount_nil]
      omega
    | error e =>
      by_cases h3 : rc < 3
      · have := ih (rc + 1)
        simp only [if_pos h3, backoffCount_attempt, backoffCount_backoff]
        omega
      · simp only [if_neg h3, backoffCount_attempt, backoffCount_nil]
        omega

theorem openInternal_attemptCount (goto : Nat → Except String Unit) :
    ∀ fuel rc, rc ≤ 3 → attemptCount (openInternal goto rc fuel).2 ≤ 4 - rc := by
  intro fuel
  induction fuel with
  | zero => intro rc _; simp [openInternal, attemptCount_nil]
  | succ f ih =>
    intro rc hrc
    simp only [openInternal]
    cases h : goto rc with
    | ok u =>
      simp only [attemptCount_attempt, attemptCount_nil]
      omega
    | error e =>
      by_cases h3 : rc < 3
      · have := ih (rc + 1) (by omega)
        simp only [if_pos h3, attemptCount_attempt, attemptCount_backoff]
        omega
      · simp only [if_neg h3, attemptCount_attempt, attemptCount_nil]
        omega

/-! ## Claims about the Navigation Controller -/

/-- Claim C2, confirmed: a `navigateToUrl` call performs at most 3 retries
after the initial load attempt (at most 4 `goto` attempts), waits exactly
5000, 10000, 15000 ms before the 1st–3rd retries when every load attempt
fails, and the give-up after the 3rd retry is silent: no load error is ever
propagated — the result of the call is completely independent of the load
outcomes, being determined by the dom-content wait phase alone. -/
theorem navigateToUrl_backoff_silent :
    (∀ (goto goto' : Nat → Except String Unit) (domWait : Except String Unit)
       (w : Bool),
       (navigateToUrl goto domWait w).1 = (navigateToUrl goto' domWait w).1)
    ∧ (∀ (goto : Nat → Except String Unit) (domWait : Except String Unit)
       (w : Bool),
       backoffCount (navigateToUrl goto domWait w).2 ≤ 3
       ∧ attemptCount (navigateToUrl goto domWait w).2 ≤ 4)
    ∧ (∀ (e : Nat → String) (domWait : Except String Unit) (w : Bool),
       (navigateToUrl (fun k => Except.error (e k)) domWait w).2 =
         [NavStep.attempt 0, NavStep.backoff 5000, NavStep.attempt 1,
          NavStep.backoff 10000, NavStep.attempt 2, NavStep.backoff 15000,
          NavStep.attempt 3]) := by
  refine ⟨?_, ?_, ?_⟩
  · intro goto goto' domWait w
    rw [navigateToUrl_result, navigateToUrl_result]
  · intro goto domWait w
    rw [navigateToUrl_trace]
    refine ⟨?_, ?_⟩
    · simpa using openInternal_backoffCount goto 4 0
    · simpa using openInternal_attemptCount goto 4 0 (by omega)
  · intro e domWait w
    rw [navigateToUrl_trace]
    rfl

/-- Counterexample to claim C5 as stated: when the load succeeds at once
but the dom-content wait times out, `navigateToUrl` does not complete
normally — the timeout error is returned to the caller. -/
theorem navigateToUrl_domwait_counterexample :
    (navigateToUrl (fun _ => Except.ok ())
        (Except.error "Timeout 60000ms exceeded") true).1 =
      Except.error "Timeout 60000ms exceeded"
    ∧ (navigateToUrl (fun _ => Except.ok ())
        (Except.error "Timeout 60000ms exceeded") true).1 ≠
      Except.ok () := by
  refine ⟨rfl, ?_⟩
  intro h
  rw [show (navigateToUrl (fun _ => Except.ok ())
        (Except.error "Timeout 60000ms exceeded") true).1 =
      Except.error "Timeout 60000ms exceeded" from rfl] at h
  exact Except.noConfusion h

/-- Claim C5, amended: when the dom-content wait exceeds its 60-second
bound, `navigateToUrl` neither catches nor logs the failure: the dom-wait
error propagates unchanged to the caller, for every load behaviour. -/
theorem navigateToUrl_domwait_propagates :
    ∀ (goto : Nat → Except String Unit) (e : String),
      (navigateToUrl goto (Except.error e) true).1 = Except.error e := by
  intro goto e
  rw [navigateToUrl_result]
  rfl

/-! ## Claims about the Session Store -/

/-- Counterexample to claim C3 as stated: on a state holding page, context
and browser, a failing `page.close()` ends the single `try` block of
`reset`, so the context close (and the browser close) is never attempted —
the close failures are not swallowed independently. -/
theorem reset_independent_close_counterexample :
    (BrowserManager.reset st3 env3).2 = [ResetEv.closePage]
    ∧ ResetEv.closeContext ∉ (BrowserManager.reset st3 env3).2
    ∧ ResetEv.closeBrowser ∉ (BrowserManager.reset st3 env3).2
    ∧ st3.context.isSome = true
    ∧ st3.browser.isSome = true := by decide

/-- Claim C3, amended: `reset` swallows close failures through a single
`catch` covering all three closes, so a failure while closing the page
prevents the context and browser closes from being attempted; regardless of
close failures, the `finally` block always clears page, context and browser
to `null`. -/
theorem reset_single_catch :
    ∀ (st : BMState) (env : ResetEnv),
      ((BrowserManager.reset st env).1.page = none
       ∧ (BrowserManager.reset st env).1.context = none
       ∧ (BrowserManager.reset st env).1.browser = none)
      ∧ (∀ e, st.page.isSome = true → env.pageIsClosed = false →
          env.pageClose = Except.error e →
          (BrowserManager.reset st env).2 = [ResetEv.closePage]) := by
  intro st env
  refine ⟨⟨rfl, rfl, rfl⟩, ?_⟩
  intro e h1 h2 h3
  simp [BrowserManager.reset, resetTryBlock, h1, h2, h3]

/-- Witness for `reset_single_catch`: on the concrete full-session state
whose page close fails, only the page close is attempted. -/
theorem reset_single_catch_witness :
    (BrowserManager.reset st3 env3).2 = [ResetEv.closePage] :=
  (reset_single_catch st3 env3).2 "page close failed" rfl rfl rfl

theorem handlesBelow_spec {st : BMState} (h : handlesBelow st = true) :
    (∀ k, st.browser = some k → k < st.nextId)
    ∧ (∀ k, st.context = some k → k < st.nextId)
    ∧ (∀ k, st.page = some k → k < st.nextId) := by
  have h' := h
  unfold handlesBelow at h'
  rw [Bool.and_eq_true, Bool.and_eq_true] at h'
  obtain ⟨⟨hb, hc⟩, hp⟩ := h'
  refine ⟨?_, ?_, ?_⟩
  · intro k hk; rw [hk] at hb; simpa [optBelow] using hb
  · intro k hk; rw [hk] at hc; simpa [optBelow] using hc
  · intro k hk; rw [hk] at hp; simpa [optBelow] using hp

/-- Claim C8, confirmed: after `reset` returns, the store holds no browser,
context or page handle, and the next `getBrowser` never reuses — when it
succeeds it launches handles that are distinct from every handle the store
held before the reset (under the allocator invariant that all held handles
were allocated below `nextId`, with no concurrent initialization in
flight). -/
theorem reset_then_getBrowser_fresh :
    ∀ (st : BMState) (renv : ResetEnv) (lenv : LaunchEnv),
      handlesBelow st = true →
      st.isInitializing = false →
      ((BrowserManager.reset st renv).1.browser = none
       ∧ (BrowserManager.reset st renv).1.context = none
       ∧ (BrowserManager.reset st renv).1.page = none)
      ∧ (∀ b p,
          (BrowserManager.getBrowser (BrowserManager.reset st renv).1 lenv).1 ≠
            GetBrowserResult.reused b p)
      ∧ (∀ b p,
          (BrowserManager.getBrowser (BrowserManager.reset st renv).1 lenv).1 =
            GetBrowserResult.launched b p →
          ¬ isOldHandle st b ∧ ¬ isOldHandle st p) := by
  intro st renv lenv hwf hinit
  have hst2 : (BrowserManager.reset st renv).1 =
      ⟨none, none, none, st.isInitializing, st.nextId⟩ := rfl
  obtain ⟨hwb, hwc, hwp⟩ := handlesBelow_spec hwf
  refine ⟨⟨rfl, rfl, rfl⟩, ?_, ?_⟩
  · intro b p
    rw [hst2]
    simp only [BrowserManager.getBrowser, hinit]
    unfold launchPhase
    cases h1 : lenv.launch with
    | error e1 => simp
    | ok u1 =>
      cases h2 : lenv.newContext with
      | error e2 => simp
      | ok u2 =>
        cases h3 : lenv.newPage with
        | error e3 => simp
        | ok u3 => simp
  · intro b p
    rw [hst2]
    simp only [BrowserManager.getBrowser, hinit]
    unfold launchPhase
    cases h1 : lenv.launch with
    | error e1 => simp
    | ok u1 =>
      cases h2 : lenv.newContext with
      | error e2 => simp
      | ok u2 =>
        cases h3 : lenv.newPage with
        | error e3 => simp
        | ok u3 =>
          intro h
          injection h with hb hp
          subst hb
          subst hp
          constructor
          · rintro (hold | hold | hold)
            · have hlt : st.nextId < st.nextId := hwb _ hold
              omega
            · have hlt : st.nextId < st.nextId := hwc _ hold
              omega
            · have hlt : st.nextId < st.nextId := hwp _ hold
              omega
          · rintro (hold | hold | hold)
            · have hlt : st.nextId + 2 < st.nextId := hwb _ hold
              omega
            · have hlt : st.nextId + 2 < st.nextId := hwc _ hold
              omega
            · have hlt : st.nextId + 2 < st.nextId := hwp _ hold
              omega

/-- Witness for `reset_then_getBrowser_fresh`, at the concrete full-session
state `st0`: after the reset the store is empty and the next `getBrowser`
cannot reuse. -/
theorem reset_then_getBrowser_fresh_witness :
    (BrowserManager.reset st0 renv0).1.browser = none
    ∧ (∀ b p,
        (BrowserManager.getBrowser (BrowserManager.reset st0 renv0).1 lenv0).1 ≠
          GetBrowserResult.reused b p) := by
  have h := reset_then_getBrowser_fresh st0 renv0 lenv0 (by decide) rfl
  exact ⟨h.1.1, h.2.1⟩

/-! ## Lemmas about substring containment -/

theorem isPrefixChars_iff :
    ∀ (sub s : List Char), isPrefixChars sub s = true ↔ ∃ r, s = sub ++ r := by
  intro sub
  induction sub with
  | nil =>
    intro s
    simp [isPrefixChars]
  | cons a as ih =>
    intro s
    cases s with
    | nil =>
      simp [isPrefixChars]
    | cons b bs =>
      simp only [isPrefixChars, Bool.and_eq_true, beq_iff_eq, ih bs,
        List.cons_append, List.cons.injEq]
      constructor
      · rintro ⟨hab, r, hr⟩
        exact ⟨r, hab.symm, hr⟩
      · rintro ⟨r, hab, hr⟩
        exact ⟨hab.symm, r, hr⟩

theorem hasSubstring_iff :
    ∀ (sub s : List Char), hasSubstring sub s = true ↔ ∃ l r, s = l ++ sub ++ r := by
  intro sub s
  induction s with
  | nil =>
    simp only [hasSubstring, isPrefixChars_iff]
    constructor
    · rintro ⟨r, hr⟩
      exact ⟨[], r, by simpa using hr⟩
    · rintro ⟨l, r, hr⟩
      rcases List.append_eq_nil.mp hr.symm with ⟨h1, h2⟩
      rcases List.append_eq_nil.mp h1 with ⟨h3, h4⟩
      exact ⟨[], by simp [h4]⟩
  | cons c cs ih =>
    simp only [hasSubstring, Bool.or_eq_true, isPrefixChars_iff, ih]
    constructor
    · rintro (⟨r, hr⟩ | ⟨l, r, hr⟩)
      · exact ⟨[], r, by simpa using hr⟩
      · exact ⟨c :: l, r, by simp [hr]⟩
    · rintro ⟨l, r, hr⟩
      cases l with
      | nil =>
        left
        exact ⟨r, by simpa using hr⟩
      | cons x xs =>
        right
        rw [List.cons_append, List.cons_append, List.cons.injEq] at hr
        exact ⟨xs, r, hr.2⟩

theorem jsIncludes_iff (s sub : String) :
    jsIncludes s sub = true ↔ ∃ l r, s.data = l ++ sub.data ++ r := by
  exact hasSubstring_iff sub.data s.data

/-! ## Claim about the Failure Recovery Handler -/

/-- Claim C4, confirmed: on a tool-level failure the handler always
attempts to close the session exactly once (a close failure being
swallowed), and it terminates the process with exit code 1 — a non-zero
status — precisely when the error message contains the substring
`"critical"` or the substring `"timeout"`; otherwise it returns normally.
The Scenario C instance is included: the message
`"critical: element not interactable"` exits with code 1 after one close
attempt. -/
theorem handleToolError_spec :
    (∀ (msg : String) (closeResult : Except String String),
       (ToolCallLogger.handleToolError msg closeResult).2 = 1
       ∧ ((ToolCallLogger.handleToolError msg closeResult).1 =
            ProcOutcome.exited 1 ↔
          (∃ l r, msg.data = l ++ "critical".data ++ r)
          ∨ (∃ l r, msg.data = l ++ "timeout".data ++ r))
       ∧ (ToolCallLogger.handleToolError msg closeResult).1 ≠
           ProcOutcome.exited 0)
    ∧ ToolCallLogger.handleToolError "critical: element not interactable"
        (Except.ok "Browser closed successfully") = (ProcOutcome.exited 1, 1) := by
  constructor
  · intro msg closeResult
    refine ⟨?_, ?_, ?_⟩
    · simp only [ToolCallLogger.handleToolError]
      cases closeResult <;> split <;> rfl
    · rw [← jsIncludes_iff, ← jsIncludes_iff]
      simp only [ToolCallLogger.handleToolError]
      cases hc : jsIncludes msg "critical" <;>
        cases ht : jsIncludes msg "timeout" <;>
          cases closeResult <;> simp [hc, ht]
    · simp only [ToolCallLogger.handleToolError]
      cases closeResult <;>
        · split
          · intro hcon
            injection hcon with hcode
            exact absurd hcode (by decide)
          · intro hcon
            exact ProcOutcome.noConfusion hcon
  · decide

/-! ## Claims about closeBrowserTool, the Popup Suppressor, and getText -/

/-- Counterexample to claim C6 as stated: with no browser on the tool
context, `closeBrowserTool` returns the string
`"No browser instance to close"`, not the string `"no session to close"`
that the claim quotes. -/
theorem closeBrowser_no_session_counterexample :
    (closeBrowserToolRun none).1 = "No browser instance to close"
    ∧ (closeBrowserToolRun none).1 ≠ "no session to close" := by
  refine ⟨rfl, ?_⟩
  intro h
  rw [show (closeBrowserToolRun none).1 = "No browser instance to close"
      from rfl] at h
  exact absurd h (by decide)

/-- Claim C6, amended: invoking `closeBrowserTool` when no browser exists
returns the confirmation string `"No browser instance to close"` without
raising any error and without attempting any close or reset operation. -/
theorem closeBrowser_no_session_message :
    closeBrowserToolRun none = ("No browser instance to close", []) := rfl

theorem popupScan_spec (pg : PopupPage) :
    ∀ (l : List String),
      (popupScan pg l).1 = Except.ok ()
      ∧ (popupScan pg l).2 =
          (l.find? fun sel => decide (0 < pg.count sel)).toList := by
  intro l
  induction l with
  | nil => exact ⟨rfl, rfl⟩
  | cons sel rest ih =>
    by_cases h : pg.count sel > 0
    · have hd : decide (0 < pg.count sel) = true := by simpa using h
      constructor
      · simp only [popupScan, if_pos h]
        cases hc : pg.clickResult sel <;> rfl
      · simp only [popupScan, if_pos h, List.find?_cons, hd, Option.toList]
        cases hc : pg.clickResult sel <;> rfl
    · have hd : decide (0 < pg.count sel) = false := by simpa using h
      constructor
      · simp only [popupScan, if_neg h]
        exact ih.1
      · simp only [popupScan, if_neg h, List.find?_cons, hd]
        exact ih.2

/-- Claim C7, amended: each `handleCommonPopups` pass clicks at most one
consent element, never escalates a failure, and the element clicked is the
first selector in the fixed priority-list order that has any matching
element on the page (`count() > 0`) — visibility and clickability of the
element are not checked. -/
theorem popup_first_match_any_element :
    ∀ (pg : PopupPage),
      (handleCommonPopups pg).1 = Except.ok ()
      ∧ ((handleCommonPopups pg).2).length ≤ 1
      ∧ (handleCommonPopups pg).2 =
          (commonConsentSelectors.find? fun sel =>
            decide (0 < pg.count sel)).toList := by
  intro pg
  have h := popupScan_spec pg commonConsentSelectors
  refine ⟨h.1, ?_, h.2⟩
  have h2 : (handleCommonPopups pg).2 =
      (commonConsentSelectors.find? fun sel =>
        decide (0 < pg.count sel)).toList := h.2
  rw [h2]
  cases commonConsentSelectors.find? fun sel => decide (0 < pg.count sel) <;>
    simp [Option.toList]

/-- Counterexample to claim C7 as stated: on `popupCexPage` the first
priority-list selector matches only a hidden, non-clickable element while a
later selector matches a visible, clickable one; the code still clicks the
element of the first selector, whereas the claim (and the rule
`specPopupChoice` modelled from the spec) designates the later selector. -/
theorem popup_visibility_counterexample :
    (handleCommonPopups popupCexPage).2 = [selAccept]
    ∧ popupCexPage.firstVisible selAccept = false
    ∧ popupCexPage.count selCookie = 1
    ∧ popupCexPage.firstVisible selCookie = true
    ∧ popupCexPage.firstClickable selCookie = true
    ∧ specPopupChoice popupCexPage commonConsentSelectors = some selCookie
    ∧ selAccept ≠ selCookie := by
  refine ⟨rfl, rfl, rfl, rfl, rfl, rfl, by decide⟩

/-- Claim C10, confirmed: when the selector wait succeeds, the payload of
`getTextTool` is the `textContent` of the element with leading and trailing
whitespace trimmed, and a `null` or whitespace-only `textContent` still
succeeds with the empty string (never `null`, never a failure). -/
theorem getText_trim_payload :
    (∀ (tc : Option String),
       getTextToolRun (Except.ok ()) tc =
         Except.ok ("Text content: " ++ jsTrim (tc.getD ""),
           jsTrim (tc.getD "")))
    ∧ getTextToolRun (Except.ok ()) none = Except.ok ("Text content: ", "")
    ∧ getTextToolRun (Except.ok ()) (some "   ") =
        Except.ok ("Text content: ", "") := by
  refine ⟨?_, ?_, ?_⟩
  · intro tc
    cases tc with
    | none => rfl
    | some s =>
      simp only [getTextToolRun, getTextPayload, Option.getD]
      by_cases h : jsTrim s = ""
      · simp [h]
      · simp [h]
  · rfl
  · rfl
